import Mathlib

set_option maxHeartbeats 1000000

/-!
Verification development for the SEOCopilot-MCP repository.

The repository's request pipeline (SERP fetch → normalization → LLM
suggestion engine → response rendering → tool gateways) is embedded
shallowly: JSON values are an inductive type, Python exceptions are an
explicit error type, every fallible source function becomes a Lean
function into `Except`, and the two outbound HTTP calls become explicit
oracle parameters so that call counts and delivered payloads are visible
in theorem statements.
-/

namespace SEOCopilot

/-- A JSON / Python value, as manipulated by the repository's services.
Objects keep insertion order, as Python dicts do. -/
inductive JVal where
  | null : JVal
  | bool (b : Bool) : JVal
  | num (q : ℚ) : JVal
  | str (s : String) : JVal
  | arr (xs : List JVal) : JVal
  | obj (kvs : List (String × JVal)) : JVal

/-- The Python exceptions the embedded code can raise. `runtimeError`
carries the message the source interpolates; the message produced for a
wrapped inner exception is abbreviated by `pyErrMsg`. -/
inductive PyErr where
  | keyError (k : JVal) : PyErr
  | indexError : PyErr
  | typeError : PyErr
  | attributeError (attr : String) : PyErr
  | importError (name : String) : PyErr
  | nameError (name : String) : PyErr
  | valueError (msg : String) : PyErr
  | jsonDecodeError : PyErr
  | httpStatusError (status : Nat) : PyErr
  | connError (msg : String) : PyErr
  | runtimeError (msg : String) : PyErr
  | validationError (fields : List String) : PyErr
  | httpException (status : Nat) (detail : String) : PyErr

/-- Abbreviated rendering of a Python exception's `str(e)`, used where the
source interpolates the exception into a message string. -/
def pyErrMsg : PyErr → String
  | .keyError (.str k) => "KeyError: " ++ k
  | .keyError _ => "KeyError"
  | .indexError => "list index out of range"
  | .typeError => "TypeError"
  | .attributeError a => "AttributeError: " ++ a
  | .importError n => "cannot import name " ++ n
  | .nameError n => "name " ++ n ++ " is not defined"
  | .valueError m => m
  | .jsonDecodeError => "JSONDecodeError"
  | .httpStatusError n => toString n ++ " Error"
  | .connError m => m
  | .runtimeError m => m
  | .validationError fs => "validation error: " ++ String.intercalate ", " fs
  | .httpException n d => toString n ++ ": " ++ d

/-- Python truthiness of a JSON value. -/
def pyTruthy : JVal → Bool
  | .null => false
  | .bool b => b
  | .num q => q ≠ 0
  | .str s => s ≠ ""
  | .arr xs => !xs.isEmpty
  | .obj kvs => !kvs.isEmpty

/-- First-match association lookup (Python dicts built by the embedding
keep keys unique, so first match is the dict lookup). -/
def dictLookup {α : Type} (kvs : List (String × α)) (k : String) : Option α :=
  (kvs.find? (fun p => p.1 = k)).map (·.2)

/-- Python `d.get(k, default)` on an association list. -/
def dictGetD {α : Type} (kvs : List (String × α)) (k : String) (d : α) : α :=
  (dictLookup kvs k).getD d

/-- Python dict insertion: update in place when the key exists, else
append; preserves insertion order. -/
def dictInsert {α : Type} (kvs : List (String × α)) (k : String) (v : α) :
    List (String × α) :=
  match kvs with
  | [] => [(k, v)]
  | (k', v') :: rest =>
      if k' = k then (k', v) :: rest else (k', v') :: dictInsert rest k v

/-- Python `x[i]` subscription with Python's error behaviour for each shape. -/
def pySubscript : JVal → JVal → Except PyErr JVal
  | .obj kvs, .str k =>
      match dictLookup kvs k with
      | some v => .ok v
      | none => .error (.keyError (.str k))
  | .obj _, idx => .error (.keyError idx)
  | .arr xs, .num q =>
      if q.den = 1 ∧ 0 ≤ q.num then
        match xs.get? q.num.toNat with
        | some v => .ok v
        | none => .error .indexError
      else .error .typeError
  | .arr _, _ => .error .typeError
  | .str s, .num q =>
      if q.den = 1 ∧ 0 ≤ q.num then
        match s.toList.get? q.num.toNat with
        | some c => .ok (.str (String.mk [c]))
        | none => .error .indexError
      else .error .typeError
  | .str _, _ => .error .typeError
  | _, _ => .error .typeError

/-- Python `x.get(k, default)`: a dict method, so non-dicts raise AttributeError. -/
def pyDictGet (v : JVal) (k : String) (d : JVal) : Except PyErr JVal :=
  match v with
  | .obj kvs => .ok (dictGetD kvs k d)
  | _ => .error (.attributeError "get")

/-- Python `for x in v`: iteration over lists (elements), dicts (keys) and
strings (one-character strings); other shapes raise TypeError. -/
def pyIterList : JVal → Except PyErr (List JVal)
  | .arr xs => .ok xs
  | .obj kvs => .ok (kvs.map (fun p => .str p.1))
  | .str s => .ok (s.toList.map (fun c => .str (String.mk [c])))
  | _ => .error .typeError

mutual

/-- Python `repr()` of a value (rational numbers with denominator 1 print
as ints; the float case is approximated by the rational rendering). -/
def reprJ : JVal → String
  | .null => "None"
  | .bool true => "True"
  | .bool false => "False"
  | .num q => if q.den = 1 then toString q.num else toString q
  | .str s => "\x27" ++ s ++ "\x27"
  | .arr xs => "[" ++ reprJList xs ++ "]"
  | .obj kvs => "\x7b" ++ reprJObj kvs ++ "\x7d"

/-- Comma-joined `repr()`s of list elements. -/
def reprJList : List JVal → String
  | [] => ""
  | [x] => reprJ x
  | x :: y :: xs => reprJ x ++ ", " ++ reprJList (y :: xs)

/-- Comma-joined `repr()`s of dict entries. -/
def reprJObj : List (String × JVal) → String
  | [] => ""
  | [(k, v)] => "\x27" ++ k ++ "\x27: " ++ reprJ v
  | (k, v) :: p :: kvs =>
      "\x27" ++ k ++ "\x27: " ++ reprJ v ++ ", " ++ reprJObj (p :: kvs)

end

/-- Python `str()` of a value, as interpolated by f-strings: like `repr()`
except that a top-level string prints without quotes. -/
def pyStrOf : JVal → String
  | .str s => s
  | v => reprJ v

/-- Falsiness of an optional string (Python `not x` on an env-var value:
unset or empty both count). -/
def pyFalsyOpt : Option String → Bool
  | none => true
  | some s => s = ""

/-- Python `str.lower()` (ASCII). -/
def pyLower (s : String) : String := String.mk (s.toList.map Char.toLower)

/-- Characters Python's `str.strip()` and the regex class `\s` treat as
whitespace (ASCII range). -/
def isPySpace (c : Char) : Bool :=
  c = ' ' || c = '\t' || c = '\n' || c = '\x0d' || c = '\x0b' || c = '\x0c'

/-- Python `str.strip()`. -/
def pyStrip (s : String) : String :=
  String.mk (((s.toList.dropWhile isPySpace).reverse.dropWhile isPySpace).reverse)

/-- Python `str.capitalize()`: first character uppercased, the rest lowercased. -/
def pyCapitalize (s : String) : String :=
  match s.toList with
  | [] => ""
  | c :: cs => String.mk (c.toUpper :: cs.map Char.toLower)

/-- Python `str.split(sep)` for a one-character separator. -/
def pySplitChar (s : String) (sep : Char) : List String :=
  (s.toList.splitOn sep).map String.mk

/-! ### `json.loads`

A recursive-descent parser for the JSON grammar, following the behaviour
of Python's `json.loads`: surrounding whitespace is allowed, trailing
garbage is an error, duplicate object keys are resolved last-wins. -/

/-- JSON structural whitespace. -/
def isJsonWs (c : Char) : Bool :=
  c = ' ' || c = '\t' || c = '\n' || c = '\x0d'

/-- Value of a hex digit. -/
def hexVal (c : Char) : Option Nat :=
  if '0' ≤ c ∧ c ≤ '9' then some (c.toNat - '0'.toNat)
  else if 'a' ≤ c ∧ c ≤ 'f' then some (c.toNat - 'a'.toNat + 10)
  else if 'A' ≤ c ∧ c ≤ 'F' then some (c.toNat - 'A'.toNat + 10)
  else none

/-- Parse the body of a JSON string (the opening quote already consumed),
returning the decoded characters and the input after the closing quote. -/
def parseJStringAux : List Char → Option (List Char × List Char)
  | [] => none
  | '"' :: rest => some ([], rest)
  | '\\' :: esc =>
      match esc with
      | '"' :: rest => (parseJStringAux rest).map (fun p => ('"' :: p.1, p.2))
      | '\\' :: rest => (parseJStringAux rest).map (fun p => ('\\' :: p.1, p.2))
      | '/' :: rest => (parseJStringAux rest).map (fun p => ('/' :: p.1, p.2))
      | 'b' :: rest => (parseJStringAux rest).map (fun p => ('\x08' :: p.1, p.2))
      | 'f' :: rest => (parseJStringAux rest).map (fun p => ('\x0c' :: p.1, p.2))
      | 'n' :: rest => (parseJStringAux rest).map (fun p => ('\n' :: p.1, p.2))
      | 'r' :: rest => (parseJStringAux rest).map (fun p => ('\x0d' :: p.1, p.2))
      | 't' :: rest => (parseJStringAux rest).map (fun p => ('\t' :: p.1, p.2))
      | 'u' :: h1 :: h2 :: h3 :: h4 :: rest =>
          match hexVal h1, hexVal h2, hexVal h3, hexVal h4 with
          | some a, some b, some c, some d =>
              (parseJStringAux rest).map
                (fun p => (Char.ofNat (((a * 16 + b) * 16 + c) * 16 + d) :: p.1, p.2))
          | _, _, _, _ => none
      | _ => none
  | c :: rest =>
      if c.toNat < 32 then none
      else (parseJStringAux rest).map (fun p => (c :: p.1, p.2))

/-- Parse a complete JSON string literal (expects the opening quote). -/
def parseJString : List Char → Option (String × List Char)
  | '"' :: rest => (parseJStringAux rest).map (fun p => (String.mk p.1, p.2))
  | _ => none

/-- Numeric value of a digit run. -/
def digitsToNat (ds : List Char) : Nat :=
  ds.foldl (fun acc c => acc * 10 + (c.toNat - '0'.toNat)) 0

/-- Powers of ten (kept kernel-reducible). -/
def tenPow : Nat → Nat
  | 0 => 1
  | n + 1 => 10 * tenPow n

/-- Parse a JSON number per the grammar `-?(0|[1-9]\d*)(\.\d+)?([eE][+-]?\d+)?`,
yielding its exact rational value. -/
def parseJNumber (cs : List Char) : Option (ℚ × List Char) :=
  let (neg, cs1) := match cs with
    | '-' :: rest => (true, rest)
    | _ => (false, cs)
  let (intDs, cs2) := cs1.span Char.isDigit
  match intDs with
  | [] => none
  | d0 :: ds =>
    if d0 = '0' ∧ ds ≠ [] then none
    else
      let (fracDs, cs3) :=
        match cs2 with
        | '.' :: rest =>
            let (fs, r) := rest.span Char.isDigit
            (fs, if fs.isEmpty then none else some r)
        | _ => ([], some cs2)
      match cs3 with
      | none => none
      | some cs3 =>
        let expPart : Option (Int × List Char) :=
          match cs3 with
          | 'e' :: rest | 'E' :: rest =>
              let (esign, rest1) := match rest with
                | '+' :: r => ((1 : Int), r)
                | '-' :: r => ((-1 : Int), r)
                | _ => ((1 : Int), rest)
              let (eds, rr2) := rest1.span Char.isDigit
              if eds.isEmpty then none
              else some (esign * (digitsToNat eds : Int), rr2)
          | _ => some (0, cs3)
        match expPart with
        | none => none
        | some (e, rest) =>
          let mantissa : Int := (digitsToNat (d0 :: ds ++ fracDs) : Int)
          let mantissa := if neg then -mantissa else mantissa
          let scale : Int := e - (fracDs.length : Int)
          let q : ℚ :=
            if 0 ≤ scale then mkRat (mantissa * (tenPow scale.toNat : Int)) 1
            else mkRat mantissa (tenPow (-scale).toNat)
          some (q, rest)

mutual

/-- Parse one JSON value (fuelled; fuel exceeds input length at the top
call, so exhaustion never occurs on real inputs). -/
def parseJVal : Nat → List Char → Option (JVal × List Char)
  | 0, _ => none
  | _ + 1, [] => none
  | fuel + 1, c :: cs =>
      match c with
      | '"' =>
          (parseJString ('"' :: cs)).map (fun p => (JVal.str p.1, p.2))
      | '\x7b' =>
          let cs2 := cs.dropWhile isJsonWs
          match cs2 with
          | '\x7d' :: rest => some (JVal.obj [], rest)
          | _ => (parseJMembers fuel cs2 []).map
              (fun p => (JVal.obj p.1, p.2))
      | '[' =>
          let cs' := cs.dropWhile isJsonWs
          match cs' with
          | ']' :: rest => some (JVal.arr [], rest)
          | _ => (parseJElems fuel cs' []).map (fun p => (JVal.arr p.1, p.2))
      | 't' =>
          match cs with
          | 'r' :: 'u' :: 'e' :: rest => some (JVal.bool true, rest)
          | _ => none
      | 'f' =>
          match cs with
          | 'a' :: 'l' :: 's' :: 'e' :: rest => some (JVal.bool false, rest)
          | _ => none
      | 'n' =>
          match cs with
          | 'u' :: 'l' :: 'l' :: rest => some (JVal.null, rest)
          | _ => none
      | _ => (parseJNumber (c :: cs)).map (fun p => (JVal.num p.1, p.2))

/-- Parse the members of a JSON object after the opening brace (at least
one member present), accumulating with last-wins key semantics. -/
def parseJMembers (fuel : Nat) (cs : List Char) (acc : List (String × JVal)) :
    Option (List (String × JVal) × List Char) :=
  match fuel with
  | 0 => none
  | fuel + 1 =>
    match parseJString cs with
    | none => none
    | some (k, rest) =>
      match rest.dropWhile isJsonWs with
      | ':' :: rest1 =>
        match parseJVal fuel (rest1.dropWhile isJsonWs) with
        | none => none
        | some (v, rest2) =>
          let acc2 := dictInsert acc k v
          match rest2.dropWhile isJsonWs with
          | ',' :: rest3 =>
              parseJMembers fuel (rest3.dropWhile isJsonWs) acc2
          | '\x7d' :: rest3 => some (acc2, rest3)
          | _ => none
      | _ => none

/-- Parse the elements of a JSON array after the opening bracket (at least
one element present). -/
def parseJElems (fuel : Nat) (cs : List Char) (acc : List JVal) :
    Option (List JVal × List Char) :=
  match fuel with
  | 0 => none
  | fuel + 1 =>
    match parseJVal fuel cs with
    | none => none
    | some (v, rest) =>
      match rest.dropWhile isJsonWs with
      | ',' :: rest1 => parseJElems fuel (rest1.dropWhile isJsonWs) (acc ++ [v])
      | ']' :: rest1 => some (acc ++ [v], rest1)
      | _ => none

end

/-- Model of `json.loads`: parse a whole string as JSON, rejecting trailing
garbage; `none` models a raised `json.JSONDecodeError`. -/
def jsonLoads (s : String) : Option JVal :=
  match parseJVal (s.length + 1) (s.toList.dropWhile isJsonWs) with
  | some (v, rest) => if (rest.dropWhile isJsonWs).isEmpty then some v else none
  | none => none

/-! ### The fenced-code-block search

`title_rewrite.py` recovers JSON from markdown with
`re.search(r'```(?:json)?\s*(.*?)\s*```', content, re.DOTALL)`.
The functions below implement exactly the group this regex captures:
the match anchors at the first triple backtick that has a later closing
triple backtick, an immediately following literal `json` is consumed,
and the lazily-captured group is the text up to the next closing fence
with surrounding whitespace stripped by the greedy `\s*`s. -/

/-- Whether a triple backtick occurs anywhere in the input. -/
def hasTriple : List Char → Bool
  | '`' :: '`' :: '`' :: _ => true
  | _ :: rest => hasTriple rest
  | [] => false

/-- The characters strictly before the first triple backtick, when one
occurs. -/
def beforeTriple : List Char → Option (List Char)
  | '`' :: '`' :: '`' :: _ => some []
  | c :: rest => (beforeTriple rest).map (c :: ·)
  | [] => none

/-- Strip trailing regex whitespace. -/
def dropTrailingWs (cs : List Char) : List Char :=
  (cs.reverse.dropWhile isPySpace).reverse

/-- The captured group given the text after the opening fence. -/
def fencedExtract (rest : List Char) : Option (List Char) :=
  let r1 := if "json".toList.isPrefixOf rest then rest.drop 4 else rest
  let r2 := r1.dropWhile isPySpace
  (beforeTriple r2).map dropTrailingWs

/-- Scan for the leftmost viable opening fence. -/
def findFencedAux : List Char → Option (List Char)
  | '`' :: '`' :: '`' :: rest =>
      if hasTriple rest then fencedExtract rest else none
  | _ :: rest => findFencedAux rest
  | [] => none

/-- Model of `re.search(r'```(?:json)?\s*(.*?)\s*```', content, re.DOTALL)`,
returning group 1. -/
def findFenced (s : String) : Option String :=
  (findFencedAux s.toList).map String.mk

/-! ### src/services/parser.py -/

/-- Body of the comprehension in `extract_serp_titles`: for each item,
`item["type"]` is evaluated first (raising `KeyError` when absent, and
`TypeError` when the item is not a dict), then `"title" in item`; the
title value is kept for organic items that have one. -/
def extractTitlesLoop : List JVal → Except PyErr (List JVal)
  | [] => .ok []
  | item :: rest => do
      let t ← pySubscript item (.str "type")
      let isOrganic := match t with | .str s => s == "organic" | _ => false
      match item, isOrganic with
      | .obj kvs, true =>
          match dictLookup kvs "title" with
          | some tv => do
              let tl ← extractTitlesLoop rest
              .ok (tv :: tl)
          | none => extractTitlesLoop rest
      | _, _ => extractTitlesLoop rest

/-- Function `extract_serp_titles` from src/services/parser.py:
`items = dataforseo_response["result"][0]["items"]` followed by
`[item["title"] for item in items if item["type"] == "organic" and "title" in item]`. -/
def extract_serp_titles (dataforseo_response : JVal) : Except PyErr (List JVal) := do
  let r ← pySubscript dataforseo_response (.str "result")
  let r0 ← pySubscript r (.num 0)
  let itemsV ← pySubscript r0 (.str "items")
  let items ← pyIterList itemsV
  extractTitlesLoop items

/-- The dict appended per organic item by `extract_organic_results`; it
always has exactly the keys `keyword`, `title`, `url`, `position`,
`language`, `location_name`. -/
structure OrganicRecord where
  keyword : JVal
  title : JVal
  url : JVal
  position : JVal
  language : JVal
  location_name : JVal

/-- The `for item in items` loop of `extract_organic_results`: skip items
whose `type` tag is not `"organic"` (`item["type"]` raising when absent),
and build a record with per-item optional fields defaulted. -/
def organicLoop (keyword language_code location_name : JVal) :
    List JVal → Except PyErr (List OrganicRecord)
  | [] => .ok []
  | item :: rest => do
      let t ← pySubscript item (.str "type")
      let isOrganic := match t with | .str s => s == "organic" | _ => false
      if isOrganic then do
        let title ← pyDictGet item "title" (.str "")
        let url ← pyDictGet item "url" (.str "")
        let pos ← pyDictGet item "rank_group" (.num 0)
        let tl ← organicLoop keyword language_code location_name rest
        .ok (⟨keyword, title, url, pos, language_code, location_name⟩ :: tl)
      else organicLoop keyword language_code location_name rest

/-- Function `extract_organic_results` from src/services/parser.py: the keyword is
read from `response["result"][0]["keyword"]`, locale fields from
`response["data"]` with defaults, and one record is emitted per organic
item with `rank_group` mapped to `position` (default 0). -/
def extract_organic_results (dataforseo_response : JVal) :
    Except PyErr (List OrganicRecord) := do
  let r ← pySubscript dataforseo_response (.str "result")
  let r0 ← pySubscript r (.num 0)
  let keyword ← pySubscript r0 (.str "keyword")
  let dataV ← pySubscript dataforseo_response (.str "data")
  let location_name ← pyDictGet dataV "location_name" (.str "Unknown")
  let language_code ← pyDictGet dataV "language_code" (.str "en")
  let itemsV ← pySubscript r0 (.str "items")
  let items ← pyIterList itemsV
  organicLoop keyword language_code location_name items

/-! ### src/services/dataforseo.py -/

/-- Outcome of the one outbound POST `fetch_live_serp` can make: a
transport failure, or a response with a status code, raw text, and its
body parsed as JSON (`none` when the body is not valid JSON). -/
inductive SerpHttpOutcome where
  | connError (msg : String)
  | resp (status : Nat) (text : String) (jsonBody : Option JVal)

/-- Function `fetch_live_serp` from src/services/dataforseo.py. The credential
check precedes the network call; the second component of the result
counts HTTP requests issued. A non-200 status raises `RuntimeError`; the
`tasks[0].result[0]` unwrap converts `KeyError`/`IndexError` (only) to
`RuntimeError("Malformed DataForSEO response")`. -/
def fetch_live_serp (login password : Option String)
    (keyword : String) (location_code : Int) (language_code device : String)
    (http : SerpHttpOutcome) : Except PyErr JVal × Nat :=
  if pyFalsyOpt login || pyFalsyOpt password then
    (.error (.runtimeError "Missing DataForSEO credentials"), 0)
  else
    match http with
    | .connError m => (.error (.connError m), 1)
    | .resp status text jsonBody =>
        if status ≠ 200 then
          (.error (.runtimeError
            ("DataForSEO API error: " ++ toString status ++ " - " ++ text)), 1)
        else
          match jsonBody with
          | none => (.error .jsonDecodeError, 1)
          | some data =>
              let unwrap : Except PyErr JVal := do
                let t ← pySubscript data (.str "tasks")
                let t0 ← pySubscript t (.num 0)
                let res ← pySubscript t0 (.str "result")
                pySubscript res (.num 0)
              match unwrap with
              | .ok v => (.ok v, 1)
              | .error (.keyError _) =>
                  (.error (.runtimeError "Malformed DataForSEO response"), 1)
              | .error .indexError =>
                  (.error (.runtimeError "Malformed DataForSEO response"), 1)
              | .error e => (.error e, 1)

/-! ### src/services/title_rewrite.py -/

/-- Template text before `{query}` in `suggest_better_titles`. -/
def promptP1 : String :=
  "You are an expert SEO assistant.\n\n" ++
  "Your task is to generate a set of compelling and optimized meta titles and meta descriptions for the query: \""

/-- Template text between `{query}` and `{user_title}`. -/
def promptP2 : String :=
  "\".\n\nThe page currently uses this title:\n\""

/-- Template text between `{user_title}` and `{competitor_titles}`. -/
def promptP3 : String :=
  "\"\n\nHere are the top titles currently ranking in Google for this query:\n"

/-- Template text after `{competitor_titles}` (the `{{`/`}}` escapes of
`str.format` render as single braces). -/
def promptP4 : String :=
  "\n\nUse the SERP data above to guide your suggestions — match the tone, length, and structure where needed, but aim to **outperform these** by being more relevant, clickable, and unique.\n\n" ++
  "Follow these principles:\n" ++
  "- Prioritize **CTR (click-through rate)** above all — drive user intent\n" ++
  "- Titles should be between **50–65 characters**, unless the SERP data suggests that titles are generally shorter than this; be sure to include the rationale in your response.\n" ++
  "- Descriptions must be between **120–160 characters**\n" ++
  "- If the SERP includes **emojis**, include tasteful, relevant emoji suggestions too\n" ++
  "- Emojis should always be at the **start** or the **end** of the title\n" ++
  "- Consider **average SERP title length** and adjust suggestions to match Google\x27s presentation - this can override the 50 character minimum as required\n" ++
  "- Look for angles that the current titles may be missing: CTAs, emotional appeal, specificity, or uniqueness\n\n" ++
  "Return exactly 5 suggestions, each with:\n" ++
  "- A meta title\n" ++
  "- A meta description\n" ++
  "- A short explanation (1–2 lines) of what the suggestion aims to achieve\n\n" ++
  "Format your response as a structured JSON with the following format:\n" ++
  "```json\n" ++
  "\x7b\n" ++
  "  \"suggestions\": [\n" ++
  "    \x7b\n" ++
  "      \"title\": \"Suggested title 1\",\n" ++
  "      \"description\": \"Suggested description 1\",\n" ++
  "      \"rationale\": \"Rationale for suggestion 1\"\n" ++
  "    \x7d,\n" ++
  "    \x7b\n" ++
  "      \"title\": \"Suggested title 2\",\n" ++
  "      \"description\": \"Suggested description 2\",\n" ++
  "      \"rationale\": \"Rationale for suggestion 2\"\n" ++
  "    \x7d\n" ++
  "  ]\n" ++
  "\x7d\n" ++
  "```\n\n" ++
  "Only return the JSON, no other text."

/-- The expression `'\n'.join(f"- {t}" for t in top_titles)` — the titles coming out of
`extract_serp_titles` are arbitrary JSON values and the f-string renders
them with `str()`. -/
def bulletJoin (top_titles : List JVal) : String :=
  String.intercalate "\n" (top_titles.map (fun t => "- " ++ pyStrOf t))

/-- The `.format(query=..., user_title=..., competitor_titles=...)` call
on the prompt template. -/
def formatPrompt (query user_title : String) (top_titles : List JVal) : String :=
  promptP1 ++ query ++ promptP2 ++ user_title ++ promptP3 ++
    bulletJoin top_titles ++ promptP4

/-- Python's `needle in hay` substring test. -/
def substrB (needle : List Char) : List Char → Bool
  | [] => needle.isPrefixOf []
  | c :: rest => needle.isPrefixOf (c :: rest) || substrB needle rest

/-- The post-parse normalization and projection in `suggest_better_titles`:
`if "suggestions" not in parsed_content: parsed_content = {"suggestions": []}`
followed by `parsed_content["suggestions"]`. Python's `in` raises
`TypeError` for non-container values (numbers, booleans, None); for lists
it tests element equality and for strings substring containment, after
which the string-keyed indexing raises `TypeError`. -/
def suggestionsCheck : JVal → Except PyErr JVal
  | .obj kvs => .ok (dictGetD kvs "suggestions" (.arr []))
  | .arr xs =>
      if xs.any (fun v => match v with | .str s => s == "suggestions" | _ => false)
      then .error .typeError
      else .ok (.arr [])
  | .str s =>
      if substrB "suggestions".toList s.toList
      then .error .typeError
      else .ok (.arr [])
  | _ => .error .typeError

/-- The layered reply parsing in `suggest_better_titles`: whole text as
JSON, else the first fenced code block's contents as JSON, else the
default `{"suggestions": []}`; the result then goes through
`suggestionsCheck`. -/
def parseLLMContent (content : String) : Except PyErr JVal :=
  match jsonLoads content with
  | some parsed => suggestionsCheck parsed
  | none =>
      match findFenced content with
      | some inner =>
          match jsonLoads inner with
          | some parsed => suggestionsCheck parsed
          | none => .ok (.arr [])
      | none => .ok (.arr [])

/-- The dict returned by `suggest_better_titles`. -/
structure SuggestOut where
  query : String
  user_title : String
  similarity_score : JVal
  top_serp_titles : List JVal
  suggestions : JVal

/-- Outcome of the one outbound POST to the LLM provider: a transport
failure, or a delivered response with a status and a JSON body. -/
inductive LLMOutcome where
  | connError (msg : String)
  | resp (status : Nat) (body : JVal)

/-- Function `suggest_better_titles` from src/services/title_rewrite.py. The LLM
call is an oracle from the prompt string to an outcome. The credential
check precedes everything; the body of the `try` block (POST,
`raise_for_status` — which raises exactly for 4xx/5xx — content
extraction, layered JSON parsing) wraps any raised exception into
`RuntimeError("Error calling Claude API: ...")`. -/
def suggest_better_titles (apiKey : Option String) (query user_title : String)
    (competitor_titles : List JVal) (llm : String → LLMOutcome) :
    Except PyErr SuggestOut :=
  if pyFalsyOpt apiKey then
    .error (.runtimeError "ANTHROPIC_API_KEY environment variable not set.")
  else
    let top_titles := competitor_titles.take 10
    let prompt := formatPrompt query user_title top_titles
    let inner : Except PyErr SuggestOut :=
      match llm prompt with
      | .connError m => .error (.connError m)
      | .resp status body =>
          if 400 ≤ status ∧ status < 600 then .error (.httpStatusError status)
          else do
            let contentList ← pyDictGet body "content" (.arr [.obj []])
            let first ← pySubscript contentList (.num 0)
            let textV ← pyDictGet first "text" (.str "")
            match textV with
            | .str content => do
                let suggestions ← parseLLMContent content
                .ok ⟨query, user_title, .null, top_titles, suggestions⟩
            | _ => .error .typeError
    match inner with
    | .ok r => .ok r
    | .error e => .error (.runtimeError ("Error calling Claude API: " ++ pyErrMsg e))

/-! ### src/services/suggestions.py -/

/-- Modelled from the spec: the module `models.serp` is part of the
repository but is not under src/. Per the spec's data model, a
`SerpEntry` holds the OrganicResult fields
`{keyword: string, title: string, url: string, position: integer,
language: string, location_name: string}`; constructing one from a dict
(`SerpEntry(**item)`) validates the field types. -/
structure SerpEntry where
  keyword : String
  title : String
  url : String
  position : Int
  language : String
  location_name : String

/-- Modelled from the spec: `SerpEntry(**item)` on a record produced by
`extract_organic_results`, validating that the string fields are strings
and the position is an integer, raising `pydantic.ValidationError`
otherwise. -/
def serpEntryOfRecord (r : OrganicRecord) : Except PyErr SerpEntry :=
  match r.keyword, r.title, r.url, r.position, r.language, r.location_name with
  | .str kw, .str t, .str u, .num p, .str lg, .str loc =>
      if h : p.den = 1 then .ok ⟨kw, t, u, p.num, lg, loc⟩
      else .error (.validationError ["position"])
  | _, _, _, _, _, _ => .error (.validationError ["field types"])

/-- The value stored per keyword by `generate_suggestions`. -/
structure SuggVal where
  original_title : String
  proposed_title : String

/-- The suggestion built from an entry:
`{"original_title": entry.title, "proposed_title": f"{base_keyword} | {domain}"}`
with `base_keyword = entry.keyword.strip().capitalize()`. -/
def suggValOf (domain : String) (e : SerpEntry) : SuggVal :=
  ⟨e.title, pyCapitalize (pyStrip e.keyword) ++ " | " ++ domain⟩

/-- One iteration of the suggestion-building loop of
`generate_suggestions`: entries with a falsy keyword or title are
skipped (`if not entry.keyword or not entry.title: continue`), the rest
keyed into the dict by `entry.keyword`. -/
def suggStep (domain : String) (d : List (String × SuggVal)) (e : SerpEntry) :
    List (String × SuggVal) :=
  if e.keyword = "" ∨ e.title = "" then d
  else dictInsert d e.keyword (suggValOf domain e)

/-- The suggestion-building loop of `generate_suggestions` (insertion
order, later entries overwriting). -/
def buildSuggestions (domain : String) (entries : List SerpEntry) :
    List (String × SuggVal) :=
  entries.foldl (suggStep domain) []

/-- Function `generate_suggestions` from src/services/suggestions.py: validate all
entries (`SerpEntry(**item)`), then build the keyword-keyed dict. -/
def generate_suggestions (serp_data : List OrganicRecord) (domain : String) :
    Except PyErr (List (String × SuggVal)) := do
  let entries ← serp_data.mapM serpEntryOfRecord
  .ok (buildSuggestions domain entries)

/-! ### src/mcp_server.py -/

/-- Modelled from the spec: the `config` module (not under src/) provides
the environment defaults — the US location code, language `"en"`, device
`"desktop"`. -/
def DEFAULT_LOCATION_CODE : Int := 2840

/-- Modelled from the spec: default language code. -/
def DEFAULT_LANGUAGE_CODE : String := "en"

/-- Modelled from the spec: default device. -/
def DEFAULT_DEVICE : String := "desktop"

/-- The argument mapping of a tool dispatch, restricted to the declared
fields of `AnalyzeTitleInput`. -/
structure AnalyzeArgs where
  query : Option String := none
  user_title : Option String := none
  location_code : Option Int := none
  language_code : Option String := none
  device : Option String := none

/-- A validated `AnalyzeTitleInput`. -/
structure AnalyzeTitleInput where
  query : String
  user_title : String
  location_code : Option Int
  language_code : Option String
  device : Option String

/-- Validation `AnalyzeTitleInput(**arguments)`: pydantic requires `query` and
`user_title` to be present (collecting all missing fields in one
`ValidationError`); an empty string is a valid `str` and passes. -/
def validateAnalyzeTitleInput (args : AnalyzeArgs) :
    Except PyErr AnalyzeTitleInput :=
  match args.query, args.user_title with
  | some q, some ut =>
      .ok ⟨q, ut, args.location_code, args.language_code, args.device⟩
  | _, _ =>
      .error (.validationError
        ((if args.query.isNone then ["query"] else []) ++
         (if args.user_title.isNone then ["user_title"] else [])))

/-- Python `x or default` on an optional int (`None` and `0` are falsy). -/
def orDefaultInt (v : Option Int) (d : Int) : Int :=
  match v with
  | some n => if n = 0 then d else n
  | none => d

/-- Python `x or default` on an optional string (`None` and `""` falsy). -/
def orDefaultStr (v : Option String) (d : String) : String :=
  match v with
  | some s => if s = "" then d else s
  | none => d

/-- A title suggestion as validated by the `TitleSuggestion` pydantic
model (all three fields must be strings). -/
structure TitleSuggestion where
  title : String
  description : String
  rationale : String

/-- The `AnalyzeTitleOutput` pydantic model. -/
structure AnalyzeTitleOutput where
  query : String
  user_title : String
  competitor_titles : List String
  suggestions : List TitleSuggestion
  model_used : String

/-- A pydantic `str` field: validation fails on non-strings. -/
def expectStr (field : String) : JVal → Except PyErr String
  | .str s => .ok s
  | _ => .error (.validationError [field])

/-- The `structured_suggestions` comprehension of `_analyze_title`:
`TitleSuggestion(title=s.get("title", ""), ...)` per element (`.get`
raising `AttributeError` on non-dicts, pydantic raising on non-string
values). -/
def structureSuggestions : List JVal → Except PyErr (List TitleSuggestion)
  | [] => .ok []
  | s :: rest => do
      let tv ← pyDictGet s "title" (.str "")
      let dv ← pyDictGet s "description" (.str "")
      let rv ← pyDictGet s "rationale" (.str "")
      let t ← expectStr "title" tv
      let d ← expectStr "description" dv
      let rl ← expectStr "rationale" rv
      let tl ← structureSuggestions rest
      .ok (⟨t, d, rl⟩ :: tl)

/-- Construction of the `AnalyzeTitleOutput`: iterate
`raw.get("suggestions", [])`, then validate `competitor_titles` as a list
of strings. -/
def buildAnalyzeOutput (inp : AnalyzeTitleInput) (titles : List JVal)
    (raw : SuggestOut) : Except PyErr AnalyzeTitleOutput := do
  let sugList ← pyIterList raw.suggestions
  let structured ← structureSuggestions sugList
  let ctitles ← titles.mapM (expectStr "competitor_titles")
  .ok ⟨inp.query, inp.user_title, ctitles, structured, "openai:gpt-4"⟩

/-- Which pipeline stages a run of `MCPServer._analyze_title` reached. -/
structure RunLog where
  calledFetch : Bool
  calledSuggest : Bool

/-- Method `MCPServer._analyze_title` from src/mcp_server.py. Input validation
happens before the `try` block, so a pydantic `ValidationError`
propagates to the dispatcher (whose `except ValueError` answers 400);
every failure inside the `try` block becomes
`HTTPException(500, "Error analyzing title: ...")`. The outbound calls
are oracle parameters; the returned log records which stages ran. -/
def mcp_analyze_title (args : AnalyzeArgs)
    (serpLogin serpPassword apiKey : Option String)
    (serpHttp : SerpHttpOutcome) (llm : String → LLMOutcome) :
    Except PyErr AnalyzeTitleOutput × RunLog :=
  match validateAnalyzeTitleInput args with
  | .error e => (.error e, ⟨false, false⟩)
  | .ok inp =>
    let location := orDefaultInt inp.location_code DEFAULT_LOCATION_CODE
    let language := orDefaultStr inp.language_code DEFAULT_LANGUAGE_CODE
    let device := orDefaultStr inp.device DEFAULT_DEVICE
    let (serpRes, _) :=
      fetch_live_serp serpLogin serpPassword inp.query location language device serpHttp
    match serpRes with
    | .error e =>
        (.error (.httpException 500 ("Error analyzing title: " ++ pyErrMsg e)),
         ⟨true, false⟩)
    | .ok serp =>
      match extract_serp_titles serp with
      | .error e =>
          (.error (.httpException 500 ("Error analyzing title: " ++ pyErrMsg e)),
           ⟨true, false⟩)
      | .ok titles =>
        match suggest_better_titles apiKey inp.query inp.user_title titles llm with
        | .error e =>
            (.error (.httpException 500 ("Error analyzing title: " ++ pyErrMsg e)),
             ⟨true, true⟩)
        | .ok raw =>
          match buildAnalyzeOutput inp titles raw with
          | .error e =>
              (.error (.httpException 500 ("Error analyzing title: " ++ pyErrMsg e)),
               ⟨true, true⟩)
          | .ok out => (.ok out, ⟨true, true⟩)

/-! ### src/mcp_stdio_server.py — the narrative report -/

/-- The inputs the report-building code of `analyze_title_tool`
(its lines 142–215) reads. -/
structure RenderIn where
  query : String
  user_title : String
  titles : List JVal
  organic_results : List OrganicRecord
  paa_questions : List String
  suggestions_data : SuggestOut
  serp : JVal

/-- Python `result.get(k, default)` on a record dict: the six keys written by
`extract_organic_results` are always present, anything else falls to the
default. -/
def recordGet (r : OrganicRecord) (k : String) (d : JVal) : JVal :=
  match k with
  | "keyword" => r.keyword
  | "title" => r.title
  | "url" => r.url
  | "position" => r.position
  | "language" => r.language
  | "location_name" => r.location_name
  | _ => d

/-- The expression `result.get('url', '').split('/')[2] if result.get('url') else 'N/A'`:
`.split` raises `AttributeError` on a non-string truthy url, the `[2]`
index raises `IndexError` when the split has fewer than three segments. -/
def domainOf (url : JVal) : Except PyErr String :=
  if pyTruthy url then
    match url with
    | .str s =>
        match (pySplitChar s '/').get? 2 with
        | some d => .ok d
        | none => .error .indexError
    | _ => .error (.attributeError "split")
  else .ok "N/A"

/-- One block of the per-result breakdown. -/
def renderResultBlock (i : Nat) (r : OrganicRecord) : Except PyErr String := do
  let domain ← domainOf r.url
  .ok ("### Result #" ++ toString i ++ "\n" ++
    "**Title:** " ++ pyStrOf (recordGet r "title" (.str "N/A")) ++ "\n" ++
    "**URL:** " ++ pyStrOf (recordGet r "url" (.str "N/A")) ++ "\n" ++
    "**Domain:** " ++ domain ++ "\n" ++
    "**Description:** " ++ pyStrOf (recordGet r "description" (.str "N/A")) ++ "\n" ++
    "**Position:** " ++ pyStrOf (recordGet r "position" (.str "N/A")) ++ "\n\n")

/-- The `enumerate(organic_results[:10], 1)` loop. -/
def renderResults (i : Nat) : List OrganicRecord → Except PyErr String
  | [] => .ok ""
  | r :: rest => do
      let b ← renderResultBlock i r
      let tl ← renderResults (i + 1) rest
      .ok (b ++ tl)

/-- One block of the suggestions section (`.get` raises `AttributeError`
on non-dict elements). -/
def renderSuggBlock (i : Nat) (s : JVal) : Except PyErr String := do
  let t ← pyDictGet s "title" (.str "N/A")
  let d ← pyDictGet s "description" (.str "N/A")
  let rl ← pyDictGet s "rationale" (.str "N/A")
  .ok ("### Suggestion " ++ toString i ++ "\n" ++
    "**Title:** " ++ pyStrOf t ++ "\n" ++
    "**Meta Description:** " ++ pyStrOf d ++ "\n" ++
    "**Rationale:** " ++ pyStrOf rl ++ "\n\n")

/-- The `enumerate(suggestions, 1)` loop. -/
def renderSuggs (i : Nat) : List JVal → Except PyErr String
  | [] => .ok ""
  | s :: rest => do
      let b ← renderSuggBlock i s
      let tl ← renderSuggs (i + 1) rest
      .ok (b ++ tl)

/-- The report text from the header through the suggestions section
(everything before the `generate_enhanced_analysis` line). -/
def renderHead (inp : RenderIn) : Except PyErr String := do
  let header :=
    "# SEO Title Analysis Results\n\n" ++
    "**Query analyzed:** " ++ inp.query ++ "\n" ++
    "**Current title:** " ++ inp.user_title ++ "\n" ++
    "**Competitor titles found:** " ++ toString inp.titles.length ++ "\n" ++
    "**Total organic results:** " ++ toString inp.organic_results.length ++ "\n" ++
    "**People Also Ask questions:** " ++ toString inp.paa_questions.length ++ "\n\n"
  let paaSection :=
    if inp.paa_questions.isEmpty then ""
    else
      "## People Also Ask Questions:\n\n" ++
      String.join ((List.enumFrom 1 inp.paa_questions).map
        (fun p => toString p.1 ++ ". " ++ p.2 ++ "\n")) ++
      "\n"
  let resultsSection ← renderResults 1 (inp.organic_results.take 10)
  let suggestions := inp.suggestions_data.suggestions
  let suggSection ←
    if pyTruthy suggestions then do
      let xs ← pyIterList suggestions
      renderSuggs 1 xs
    else
      pure "No suggestions were generated. Please check your API configuration.\n"
  .ok (header ++ paaSection ++ "## Detailed Competitor Analysis:\n\n" ++
    resultsSection ++ "\n## SEO Title Suggestions:\n\n" ++ suggSection)

/-- The `item.get('type')`-filtered SERP feature tags: keep truthy values
whose tag differs from `"organic"`; Python later sorts them, which
requires them to be strings. -/
def featureTags : List JVal → Except PyErr (List String)
  | [] => .ok []
  | item :: rest => do
      let t ← pyDictGet item "type" .null
      let keep := pyTruthy t &&
        !(match t with | .str s => s == "organic" | _ => false)
      if keep then
        match t with
        | .str s => do
            let tl ← featureTags rest
            .ok (s :: tl)
        | _ => .error .typeError
      else featureTags rest

/-- The `domains` comprehension:
`[result.get('url', '').split('/')[2] for result in organic_results if result.get('url')]`. -/
def domainsOf : List OrganicRecord → Except PyErr (List String)
  | [] => .ok []
  | r :: rest =>
      if pyTruthy r.url then do
        let d ← domainOf r.url
        let tl ← domainsOf rest
        .ok (d :: tl)
      else domainsOf rest

/-- Python `sorted` on a list of strings (lexicographic code-point order). -/
def sortedStrings (xs : List String) : List String :=
  xs.mergeSort (fun a b => a ≤ b)

/-- The `tld_counts` accumulation dict. -/
def tldCounts (tlds : List String) : List (String × Nat) :=
  tlds.foldl (fun d t => dictInsert d t (dictGetD d t 0 + 1)) []

/-- The `tlds` comprehension:
`[domain.split('.')[-1] for domain in domains if domain and '.' in domain]`
(`split` never yields an empty list, so `[-1]` is total here). -/
def tldsOf (domains : List String) : List String :=
  (domains.filter (fun d => d ≠ "" && d.toList.contains '.')).map
    (fun d => ((pySplitChar d '.').getLast?).getD "")

/-- The report text after the `generate_enhanced_analysis` line: raw SERP
metadata, the SERP-feature set (a Python `set`, enumerated by `setEnum`
before being sorted), the `list(set(domains))` count and the TLD
distribution (a stable sort, descending by count, of the
insertion-ordered counts dict, printed with Python's dict repr). -/
def renderTail (inp : RenderIn) (setEnum : List String → List String)
    (head enhanced : String) : Except PyErr String := do
  let metaSection := do
    let s1 ← pyDictGet inp.serp "se_results_count" (.str "N/A")
    let s2 ← pyDictGet inp.serp "datetime" (.str "N/A")
    let s3 ← pyDictGet inp.serp "location_code" (.str "N/A")
    let s4 ← pyDictGet inp.serp "device" (.str "N/A")
    Except.ok ("\n## Additional SERP Data for Analysis\n" ++
      "**Total SERP results:** " ++ pyStrOf s1 ++ "\n" ++
      "**Search performed:** " ++ pyStrOf s2 ++ "\n" ++
      "**Location:** " ++ pyStrOf s3 ++ "\n" ++
      "**Device:** " ++ pyStrOf s4 ++ "\n")
  let meta ← metaSection
  let itemsV ← pyDictGet inp.serp "items" (.arr [])
  let items ← pyIterList itemsV
  let tags ← featureTags items
  let featuresSection :=
    if tags.isEmpty then ""
    else "**SERP Features present:** " ++
      String.intercalate ", " (sortedStrings (setEnum tags)) ++ "\n"
  let domains ← domainsOf inp.organic_results
  let uniqueSection :=
    "**Unique domains ranking:** " ++ toString (setEnum domains).length ++ "\n"
  let counts := tldCounts (tldsOf domains)
  let tldSection :=
    if counts.isEmpty then ""
    else "**TLD distribution:** " ++
      pyStrOf (.obj ((counts.mergeSort (fun a b => b.2 ≤ a.2)).map
        (fun p => (p.1, JVal.num (p.2 : ℚ))))) ++ "\n"
  .ok (head ++ "\n## Enhanced SERP Analysis\n" ++ enhanced ++ meta ++
    featuresSection ++ uniqueSection ++ tldSection)

/-- The narrative-report render step of `analyze_title_tool` (source lines
142–215), as a function of its inputs plus an enumeration function
standing for Python's (hash-seed dependent) `set` iteration order. The
`generate_enhanced_analysis(...)` call references a name that is defined
nowhere, raising `NameError`. -/
def renderNarrative (inp : RenderIn) (setEnum : List String → List String) :
    Except PyErr String := do
  let head ← renderHead inp
  let enhanced ← (Except.error (.nameError "generate_enhanced_analysis") :
    Except PyErr String)
  renderTail inp setEnum head enhanced

/-! ### src/mcp_stdio_server.py — the tool flow -/

/-- The names module src/services/parser.py defines. -/
def parserModuleNames : List String :=
  ["extract_serp_titles", "extract_organic_results"]

/-- The function-local
`from services.parser import extract_organic_results, extract_paa_questions`
in `analyze_title_tool`: the parser module defines only
`parserModuleNames`, so the second name raises `ImportError` at call
time. (The `.ok` branch is vacuous; no such function exists to bind.) -/
def importPaaQuestions : Except PyErr (JVal → Except PyErr (List String)) :=
  if "extract_paa_questions" ∈ parserModuleNames then .ok (fun _ => .ok [])
  else .error (.importError "extract_paa_questions")

/-- The argument mapping of an `analyze_title` stdio tool call. -/
structure StdioArgs where
  query : Option String := none
  user_title : Option String := none
  location_code : Option Int := none
  language_code : Option String := none
  device : Option String := none
  use_test_data : Bool := false

/-- Which `except` clause of `analyze_title_tool` answered. -/
inductive StdioBranch where
  | invalid
  | service
  | unexpected

/-- What the stdio tool returns: the narrative report, or the text built
by one of the three error handlers (identified by its branch and the
exception it formatted). -/
inductive StdioResult where
  | report (text : String)
  | errorReply (branch : StdioBranch) (e : PyErr)

/-- The `except` chain of `analyze_title_tool`: `ValueError` (which
pydantic's `ValidationError` and `json.JSONDecodeError` derive from)
answers the invalid-request text, `RuntimeError` the service-error text,
anything else the unexpected-error text. -/
def branchOf : PyErr → StdioBranch
  | .valueError _ => .invalid
  | .validationError _ => .invalid
  | .jsonDecodeError => .invalid
  | .runtimeError _ => .service
  | _ => .unexpected

/-- How `f"{query}"` renders an argument that may be absent (`None`). -/
def argStr : Option String → String
  | some s => s
  | none => "None"

/-- SERP acquisition in `analyze_title_tool`: the fixture file when
`use_test_data` is truthy or the query lowercases to
`"sweepstakes casinos"` (`query.lower()` raising `AttributeError` when
the query is absent), else `fetch_live_serp` with `.get`-defaulted
location/language/device. File-load failures are re-raised as
`RuntimeError("Error loading test data: ...")`; the loaded payload is
unwrapped with `test_data.get("serp_json", {})`. -/
def stdioAcquireSerp (args : StdioArgs) (fileLoad : Except String JVal)
    (serpLogin serpPassword : Option String) (serpHttp : SerpHttpOutcome) :
    Except PyErr JVal :=
  let fromFile : Except PyErr JVal :=
    match fileLoad with
    | .error msg => .error (.runtimeError ("Error loading test data: " ++ msg))
    | .ok test_data => pyDictGet test_data "serp_json" (.obj [])
  if args.use_test_data then fromFile
  else
    match args.query with
    | none => .error (.attributeError "lower")
    | some q =>
        if pyLower q == "sweepstakes casinos" then fromFile
        else
          (fetch_live_serp serpLogin serpPassword q
            (args.location_code.getD DEFAULT_LOCATION_CODE)
            (args.language_code.getD DEFAULT_LANGUAGE_CODE)
            (args.device.getD DEFAULT_DEVICE) serpHttp).1

/-- Function `analyze_title_tool` from src/mcp_stdio_server.py. After acquiring
SERP data and extracting titles, the function-local parser import runs
(raising `ImportError`, since `extract_paa_questions` does not exist)
before organic-result extraction, the suggestion engine, and the
narrative render; any exception is answered by the matching handler's
error text. -/
def analyze_title_tool (args : StdioArgs) (fileLoad : Except String JVal)
    (serpLogin serpPassword apiKey : Option String)
    (serpHttp : SerpHttpOutcome) (llm : String → LLMOutcome)
    (setEnum : List String → List String) : StdioResult :=
  let run : Except PyErr String := do
    let serp ← stdioAcquireSerp args fileLoad serpLogin serpPassword serpHttp
    let titles ← extract_serp_titles serp
    let extract_paa ← importPaaQuestions
    let organic_results ← extract_organic_results serp
    let paa_questions ← extract_paa serp
    let suggestions_data ←
      suggest_better_titles apiKey (argStr args.query) (argStr args.user_title)
        titles llm
    renderNarrative
      ⟨argStr args.query, argStr args.user_title, titles, organic_results,
       paa_questions, suggestions_data, serp⟩ setEnum
  match run with
  | .ok text => .report text
  | .error e => .errorReply (branchOf e) e

/-! ## Concrete fixtures -/

/-- The organic item of the spec's end-to-end scenario 1. -/
def scenario1Item1 : JVal :=
  .obj [("type", .str "organic"), ("title", .str "A"),
        ("url", .str "http://x.com/1"), ("rank_group", .num 1)]

/-- The ad item of the spec's end-to-end scenario 1. -/
def scenario1Item2 : JVal := .obj [("type", .str "ad"), ("title", .str "B")]

/-- A SERP result block as `fetch_live_serp` returns it — the unwrapped
`tasks[0].result[0]` of the provider contract `{keyword, items: [...]}` —
holding scenario 1's items. -/
def scenario1Block : JVal :=
  .obj [("keyword", .str "k"),
        ("items", .arr [scenario1Item1, scenario1Item2])]

/-- A task-shaped envelope `{result: [...], data: {...}}` — the shape the
extractors in parser.py actually index — around the same items. -/
def scenario1Task : JVal :=
  .obj [("result", .arr [scenario1Block]),
        ("data", .obj [("location_name", .str "United States"),
                       ("language_code", .str "en")])]

/-- An LLM response body whose delivered text is `content`
(`{"content": [{"text": content}]}`). -/
def mkLLMBody (content : String) : JVal :=
  .obj [("content", .arr [.obj [("text", .str content)]])]

/-- A tool-argument mapping with an empty-string query. -/
def c3Args : AnalyzeArgs := { query := some "", user_title := some "x" }

/-- A DataForSEO response whose `tasks[0].result[0]` is the task-shaped
envelope the extractors accept. -/
def c3Http : SerpHttpOutcome :=
  .resp 200 ""
    (some (.obj [("tasks", .arr [.obj [("result", .arr [scenario1Task])]])]))

/-- An LLM oracle delivering a well-formed empty suggestions object. -/
def c3Llm : String → LLMOutcome :=
  fun _ => .resp 200 (mkLLMBody "\x7b\"suggestions\": []\x7d")

/-- Stdio arguments that select the local fixture file. -/
def c7Args : StdioArgs :=
  { query := some "q", user_title := some "t", use_test_data := true }

/-- A fixture SERP (task-shaped, no items) wrapped the way
`data/payload.json` wraps it. -/
def c7Serp : JVal :=
  .obj [("result", .arr [.obj [("keyword", .str "paa"), ("items", .arr [])]]),
        ("data", .obj [])]

/-- Whether a stdio outcome is the narrative report. -/
def StdioResult.isReport : StdioResult → Bool
  | .report _ => true
  | .errorReply _ _ => false

/-- Twelve competitor titles, for exercising the top-10 truncation. -/
def c4Titles : List JVal :=
  [.str "t1", .str "t2", .str "t3", .str "t4", .str "t5", .str "t6",
   .str "t7", .str "t8", .str "t9", .str "t10", .str "t11", .str "t12"]

/-! ## Helper lemmas -/

/-- Peeling a successful `Except` bind. -/
theorem exceptBindOk {ε α β : Type} {x : Except ε α} {f : α → Except ε β}
    {b : β} (h : (x >>= f) = .ok b) : ∃ a, x = .ok a ∧ f a = .ok b := by
  cases x with
  | error e => exact absurd h (by simp [Bind.bind, Except.bind])
  | ok a => exact ⟨a, rfl, h⟩

/-- Lookup after a Python-dict insertion. -/
theorem dictLookup_dictInsert {α : Type} (d : List (String × α)) (k k' : String)
    (v : α) :
    dictLookup (dictInsert d k v) k' = if k' = k then some v else dictLookup d k' := by
  induction d with
  | nil =>
      by_cases h : k' = k
      · subst h; simp [dictInsert, dictLookup]
      · have h' : ¬ (k = k') := fun hh => h hh.symm
        simp [dictInsert, dictLookup, h, h']
  | cons p rest ih =>
      obtain ⟨k0, v0⟩ := p
      by_cases h0 : k0 = k
      · subst h0
        by_cases h : k' = k0
        · subst h; simp [dictInsert, dictLookup]
        · have h' : ¬ (k0 = k') := fun hh => h hh.symm
          simp [dictInsert, dictLookup, h, h']
      · by_cases h : k' = k0
        · subst h
          have hk : ¬ (k' = k) := fun hh => h0 (by rw [hh])
          simp [dictInsert, dictLookup, h0, hk]
        · have h0' : ¬ (k0 = k') := fun hh => h hh.symm
          simp only [dictInsert, if_neg h0]
          simp only [dictLookup, List.find?_cons, decide_eq_true_eq, if_neg h0',
            h0', decide_False] at ih ⊢
          simpa [dictLookup] using ih

/-- C1: the claim says that on every SERP result block produced by
`fetch_live_serp` (the unwrapped first task's first result, of shape
`{keyword, items}`), `extract_serp_titles` returns the titles of the
organic items and `extract_organic_results` one record per organic item
with `rank_group` as position. On that block the extractors instead raise
`KeyError('result')`, because they index `response["result"][0]["items"]`
— the task shape, one level above what `fetch_live_serp` (whose own
comment says it returns "the actual SERP result block") hands them. On
the task-shaped envelope they do return `["A"]` and one record with
position 1, as the claim expects. -/
theorem C1_extractors_reject_serp_block :
    extract_serp_titles scenario1Block = .error (.keyError (.str "result"))
    ∧ extract_serp_titles scenario1Task = .ok [.str "A"]
    ∧ extract_organic_results scenario1Task =
        .ok [⟨.str "k", .str "A", .str "http://x.com/1", .num 1,
              .str "en", .str "United States"⟩] :=
  ⟨rfl, rfl, rfl⟩

/-- C6: when either DataForSEO credential is absent (or empty, both being
falsy), `fetch_live_serp` raises the missing-credentials `RuntimeError`
and issues zero outbound HTTP requests. -/
theorem C6_missing_credentials_no_http :
    ∀ (login password : Option String) (keyword : String)
      (location_code : Int) (language_code device : String)
      (http : SerpHttpOutcome),
      pyFalsyOpt login = true ∨ pyFalsyOpt password = true →
      fetch_live_serp login password keyword location_code language_code
          device http
        = (.error (.runtimeError "Missing DataForSEO credentials"), 0) := by
  intro login password keyword location_code language_code device http h
  rcases h with h | h <;> simp [fetch_live_serp, h]

/-- Witness for C6: an unset login with a set password, against a live
HTTP oracle, still yields the credentials error and zero calls. -/
theorem C6_missing_credentials_no_http_witness :
    fetch_live_serp none (some "pw") "kw" 2840 "en" "desktop"
        (.resp 200 "" none)
      = (.error (.runtimeError "Missing DataForSEO credentials"), 0) :=
  C6_missing_credentials_no_http none (some "pw") "kw" 2840 "en" "desktop"
    (.resp 200 "" none) (Or.inl rfl)

/-- Counterexample to C5 as stated: a delivered final status of 304 is
non-2xx, yet `response.raise_for_status()` raises only for 4xx/5xx, so
the call returns an empty suggestions list instead of raising. -/
theorem C5_counterexample_status_304 :
    suggest_better_titles (some "k") "q" "t" []
        (fun _ => .resp 304 (.obj []))
      = .ok ⟨"q", "t", .null, [], .arr []⟩ := rfl

/-- C5 (amended): when the LLM HTTP call itself fails — a 4xx/5xx status
(the statuses `raise_for_status` raises for) or a network failure — the
call raises the wrapping `RuntimeError` and never returns an empty
suggestions list. -/
theorem C5_transport_failure_raises :
    ∀ (key query user_title : String) (titles : List JVal) (status : Nat)
      (body : JVal) (msg : String),
      (key ≠ "" → 400 ≤ status → status < 600 →
        suggest_better_titles (some key) query user_title titles
            (fun _ => .resp status body)
          = .error (.runtimeError
              ("Error calling Claude API: " ++ pyErrMsg (.httpStatusError status))))
      ∧ (key ≠ "" →
        suggest_better_titles (some key) query user_title titles
            (fun _ => .connError msg)
          = .error (.runtimeError ("Error calling Claude API: " ++ msg))) := by
  intro key query user_title titles status body msg
  constructor
  · intro hk h1 h2
    simp [suggest_better_titles, pyFalsyOpt, hk, h1, h2, pyErrMsg]
  · intro hk
    simp [suggest_better_titles, pyFalsyOpt, hk, pyErrMsg]

/-- Counterexample to C3 as stated: dispatching
`{query: "", user_title: "x"}` does not fail validation — pydantic
accepts the empty string as a `str` — so the pipeline runs: the SERP
fetch and the SuggestionEngine are both invoked (log `⟨true, true⟩`) and
the call returns a normal output, not a `ValidationError`. -/
theorem C3_counterexample_empty_query :
    mcp_analyze_title c3Args (some "lg") (some "pw") (some "k") c3Http c3Llm
      = (.ok ⟨"", "x", ["A"], [], "openai:gpt-4"⟩, ⟨true, true⟩) := rfl

/-- C3 (amended): a dispatch whose argument mapping is missing `query` or
`user_title` entirely fails with pydantic's `ValidationError` before the
pipeline runs — neither the SERP fetch nor the SuggestionEngine is
invoked. (An empty-string value, by contrast, passes validation.) -/
theorem C3_missing_required_field :
    ∀ (args : AnalyzeArgs) (serpLogin serpPassword apiKey : Option String)
      (serpHttp : SerpHttpOutcome) (llm : String → LLMOutcome),
      args.query = none ∨ args.user_title = none →
      mcp_analyze_title args serpLogin serpPassword apiKey serpHttp llm
        = (.error (.validationError
            ((if args.query.isNone then ["query"] else []) ++
             (if args.user_title.isNone then ["user_title"] else []))),
           ⟨false, false⟩) := by
  intro args serpLogin serpPassword apiKey serpHttp llm h
  obtain ⟨q, ut, lc, lng, dv⟩ := args
  rcases h with h | h <;> simp only at h <;> subst h
  · cases ut <;> simp [mcp_analyze_title, validateAnalyzeTitleInput]
  · cases q <;> simp [mcp_analyze_title, validateAnalyzeTitleInput]

/-- Witness for C3: a mapping missing `query` is rejected with the
field-specific validation error and an untouched pipeline. -/
theorem C3_missing_required_field_witness :
    mcp_analyze_title ⟨none, some "x", none, none, none⟩ none none none
        (.resp 200 "" none) (fun _ => .connError "c")
      = (.error (.validationError ["query"]), ⟨false, false⟩) :=
  C3_missing_required_field ⟨none, some "x", none, none, none⟩ none none none
    (.resp 200 "" none) (fun _ => .connError "c") (Or.inl rfl)

/-- C4: the prompt is built from exactly the first `min(N, 10)` competitor
titles in their original order: the engine's outcome depends on the LLM
oracle only through its value at the prompt built from `titles.take 10`;
that prefix has length `min N 10` and agrees with `titles` positionally;
its bullet list is embedded verbatim in the prompt; and a successful
result returns it as `top_serp_titles`. -/
theorem C4_prompt_truncation :
    ∀ (key : Option String) (query user_title : String) (titles : List JVal)
      (llm1 llm2 : String → LLMOutcome),
      (llm1 (formatPrompt query user_title (titles.take 10))
          = llm2 (formatPrompt query user_title (titles.take 10)) →
        suggest_better_titles key query user_title titles llm1
          = suggest_better_titles key query user_title titles llm2)
      ∧ (titles.take 10).length = min titles.length 10
      ∧ (∀ i, i < 10 → (titles.take 10)[i]? = titles[i]?)
      ∧ List.IsInfix (bulletJoin (titles.take 10)).data
          (formatPrompt query user_title (titles.take 10)).data
      ∧ (∀ r, suggest_better_titles key query user_title titles llm1 = .ok r →
          r.top_serp_titles = titles.take 10) := by
  intro key query user_title titles llm1 llm2
  refine ⟨?_, ?_, ?_, ?_, ?_⟩
  · intro h
    simp only [suggest_better_titles]
    rw [h]
  · simp [List.length_take, Nat.min_comm]
  · intro i hi
    exact List.getElem?_take_of_lt hi
  · refine ⟨(promptP1 ++ query ++ promptP2 ++ user_title ++ promptP3).data,
      promptP4.data, ?_⟩
    simp [formatPrompt, String.data_append, List.append_assoc]
  · intro r hr
    simp only [suggest_better_titles] at hr
    split at hr
    · exact absurd hr (by simp)
    · split at hr
      · rename_i r' heq
        cases hr
        split at heq
        · exact absurd heq (by simp)
        · split at heq
          · exact absurd heq (by simp)
          · obtain ⟨a1, _, h2⟩ := exceptBindOk heq
            obtain ⟨a2, _, h3⟩ := exceptBindOk h2
            obtain ⟨a3, _, h4⟩ := exceptBindOk h3
            cases a3 with
            | str content =>
                obtain ⟨s, _, h5⟩ := exceptBindOk h4
                cases h5
                rfl
            | null => exact absurd h4 (by simp)
            | bool b => exact absurd h4 (by simp)
            | num q => exact absurd h4 (by simp)
            | arr xs => exact absurd h4 (by simp)
            | obj kvs => exact absurd h4 (by simp)
      · exact absurd hr (by simp)

/-- Witness for C4: with twelve titles, the oracle agreement at the
truncated prompt determines the outcome, and the prefix has length
`min 12 10` and matches positionally. -/
theorem C4_prompt_truncation_witness :
    suggest_better_titles (some "k") "q" "t" c4Titles (fun _ => .connError "a")
        = suggest_better_titles (some "k") "q" "t" c4Titles
            (fun _ => .connError ("a" ++ ""))
      ∧ (c4Titles.take 10).length = min c4Titles.length 10
      ∧ (c4Titles.take 10)[3]? = c4Titles[3]? :=
  ⟨(C4_prompt_truncation (some "k") "q" "t" c4Titles (fun _ => .connError "a")
      (fun _ => .connError ("a" ++ ""))).1 rfl,
   (C4_prompt_truncation (some "k") "q" "t" c4Titles (fun _ => .connError "a")
      (fun _ => .connError "a")).2.1,
   (C4_prompt_truncation (some "k") "q" "t" c4Titles (fun _ => .connError "a")
      (fun _ => .connError "a")).2.2.1 3 (by decide)⟩

/-- C7: the claim says the normalizer provides `extractPaaQuestions`
returning the People-Also-Ask question texts (empty for a SERP without
them, never an error). The parser module defines no such function; the
stdio tool imports the name at call time and every run — here a fixture
SERP with no items, which per the claim should yield an empty sequence —
ends in the unexpected-error reply carrying the `ImportError`. -/
theorem C7_extract_paa_questions_missing :
    analyze_title_tool c7Args (.ok (.obj [("serp_json", c7Serp)])) none none
        none (.resp 200 "" none) (fun _ => .connError "c") id
      = .errorReply .unexpected (.importError "extract_paa_questions") := rfl

/-- C8: the narrative-report render step is a pure function of its input
tuple: its outcome does not depend on the set-enumeration order (the only
run-to-run varying input Python supplies), so two calls on identical
inputs produce byte-identical output. -/
theorem C8_render_deterministic :
    ∀ (inp : RenderIn) (setEnum1 setEnum2 : List String → List String),
      renderNarrative inp setEnum1 = renderNarrative inp setEnum2 := by
  intro inp o1 o2
  cases h : renderHead inp <;>
    simp [renderNarrative, h, Bind.bind, Except.bind]

/-- C9: for every argument mapping and every oracle behaviour, the stdio
`analyze_title` tool returns one of the error texts and never the
narrative report: every run that survives SERP acquisition and title
extraction dies at the function-local import of the undefined
`extract_paa_questions` (and the report path would still reference the
unbound `generate_enhanced_analysis`). -/
theorem C9_stdio_never_reports :
    ∀ (args : StdioArgs) (fileLoad : Except String JVal)
      (serpLogin serpPassword apiKey : Option String)
      (serpHttp : SerpHttpOutcome) (llm : String → LLMOutcome)
      (setEnum : List String → List String),
      (analyze_title_tool args fileLoad serpLogin serpPassword apiKey serpHttp
        llm setEnum).isReport = false := by
  intro args fileLoad serpLogin serpPassword apiKey serpHttp llm setEnum
  unfold analyze_title_tool
  cases hs : stdioAcquireSerp args fileLoad serpLogin serpPassword serpHttp with
  | error e => simp [hs, Bind.bind, Except.bind, StdioResult.isReport]
  | ok serp =>
      cases ht : extract_serp_titles serp with
      | error e => simp [hs, ht, Bind.bind, Except.bind, StdioResult.isReport]
      | ok titles =>
          simp [hs, ht, Bind.bind, Except.bind, StdioResult.isReport,
            importPaaQuestions, parserModuleNames]

/-- Witness for C5: a delivered 500 yields the wrapped error. -/
theorem C5_transport_failure_raises_witness :
    suggest_better_titles (some "k") "q" "t" [] (fun _ => .resp 500 .null)
      = .error (.runtimeError
          ("Error calling Claude API: " ++ pyErrMsg (.httpStatusError 500))) :=
  (C5_transport_failure_raises "k" "q" "t" [] 500 .null "x").1
    (by decide) (by decide) (by decide)

/-- Every element of a successful `mapM` comes from an element of the
input. -/
theorem mapMOkMem {ε α β : Type} {f : α → Except ε β} :
    ∀ {xs : List α} {ys : List β}, xs.mapM f = .ok ys →
      ∀ y ∈ ys, ∃ x ∈ xs, f x = .ok y := by
  intro xs
  induction xs with
  | nil =>
      intro ys h y hy
      rw [List.mapM_nil] at h
      cases h
      simp at hy
  | cons x xs ih =>
      intro ys h y hy
      rw [List.mapM_cons] at h
      obtain ⟨b, hb, h2⟩ := exceptBindOk h
      obtain ⟨bs, hbs, h3⟩ := exceptBindOk h2
      cases h3
      rcases List.mem_cons.mp hy with rfl | hy'
      · exact ⟨x, List.mem_cons_self x xs, hb⟩
      · obtain ⟨x', hx', hfx⟩ := ih hbs y hy'
        exact ⟨x', List.mem_cons_of_mem x hx', hfx⟩

/-- A validated entry's keyword is the record's keyword string. -/
theorem serpEntryOfRecord_keyword {r : OrganicRecord} {e : SerpEntry}
    (h : serpEntryOfRecord r = .ok e) : r.keyword = .str e.keyword := by
  unfold serpEntryOfRecord at h
  split at h
  · split at h
    · cases h
      next heq _ _ _ _ _ _ => exact heq
    · exact absurd h (by simp)
  · exact absurd h (by simp)

/-- Every record the organic loop emits carries the envelope keyword. -/
theorem organicLoop_keyword :
    ∀ (items : List JVal) (kw lang loc : JVal) (recs : List OrganicRecord),
      organicLoop kw lang loc items = .ok recs → ∀ r ∈ recs, r.keyword = kw := by
  intro items
  induction items with
  | nil =>
      intro kw lang loc recs h r hr
      cases h
      simp at hr
  | cons item rest ih =>
      intro kw lang loc recs h r hr
      simp only [organicLoop] at h
      obtain ⟨t, _, h2⟩ := exceptBindOk h
      split at h2
      · obtain ⟨title, _, h3⟩ := exceptBindOk h2
        obtain ⟨url, _, h4⟩ := exceptBindOk h3
        obtain ⟨pos, _, h5⟩ := exceptBindOk h4
        obtain ⟨tl, htl, h6⟩ := exceptBindOk h5
        cases h6
        rcases List.mem_cons.mp hr with rfl | hr'
        · rfl
        · exact ih kw lang loc tl htl r hr'
      · exact ih kw lang loc recs h2 r hr

/-- All records of a successful `extract_organic_results` share one
keyword (the envelope's). -/
theorem extract_organic_results_keyword :
    ∀ (resp : JVal) (recs : List OrganicRecord),
      extract_organic_results resp = .ok recs →
      ∃ kw, ∀ r ∈ recs, r.keyword = kw := by
  intro resp recs h
  simp only [extract_organic_results] at h
  obtain ⟨r1, _, h2⟩ := exceptBindOk h
  obtain ⟨r0, _, h3⟩ := exceptBindOk h2
  obtain ⟨kw, _, h4⟩ := exceptBindOk h3
  obtain ⟨dataV, _, h5⟩ := exceptBindOk h4
  obtain ⟨loc, _, h6⟩ := exceptBindOk h5
  obtain ⟨lang, _, h7⟩ := exceptBindOk h6
  obtain ⟨itemsV, _, h8⟩ := exceptBindOk h7
  obtain ⟨items, _, h9⟩ := exceptBindOk h8
  exact ⟨kw, organicLoop_keyword items kw lang loc recs h9⟩

/-- The suggestion fold keeps the dict empty or a single binding at the
shared keyword. -/
theorem suggFold_single :
    ∀ (entries : List SerpEntry) (domain kw : String)
      (d : List (String × SuggVal)),
      (∀ e ∈ entries, e.keyword = kw) →
      (d = [] ∨ ∃ v, d = [(kw, v)]) →
      (entries.foldl (suggStep domain) d = [] ∨
        ∃ v, entries.foldl (suggStep domain) d = [(kw, v)]) := by
  intro entries
  induction entries with
  | nil =>
      intro domain kw d _ hd
      simpa using hd
  | cons e es ih =>
      intro domain kw d h hd
      have hk : e.keyword = kw := h e (List.mem_cons_self e es)
      have hrest : ∀ x ∈ es, x.keyword = kw :=
        fun x hx => h x (List.mem_cons_of_mem e hx)
      rw [List.foldl_cons]
      apply ih domain kw _ hrest
      unfold suggStep
      by_cases hskip : (e.keyword = "" ∨ e.title = "")
      · rw [if_pos hskip]
        exact hd
      · rw [if_neg hskip]
        rcases hd with rfl | ⟨v, rfl⟩
        · exact Or.inr ⟨suggValOf domain e, by simp [dictInsert, hk]⟩
        · exact Or.inr ⟨suggValOf domain e, by simp [dictInsert, hk]⟩

/-- Last-wins lookup law for the suggestions dict. -/
theorem buildSuggestions_lookup :
    ∀ (domain : String) (entries : List SerpEntry) (k : String),
      dictLookup (buildSuggestions domain entries) k
        = (entries.reverse.find? (fun e =>
            e.keyword == k && !(e.keyword == "") && !(e.title == ""))).map
            (suggValOf domain) := by
  intro domain entries k
  induction entries using List.reverseRecOn with
  | nil => simp [buildSuggestions, dictLookup]
  | append_singleton es e ih =>
      simp only [buildSuggestions, List.foldl_append, List.foldl_cons,
        List.foldl_nil, List.reverse_append, List.reverse_singleton,
        List.singleton_append, List.find?_cons] at ih ⊢
      by_cases hskip : (e.keyword = "" ∨ e.title = "")
      · have hp : (e.keyword == k && !(e.keyword == "") && !(e.title == ""))
            = false := by
          rcases hskip with h1 | h1 <;> simp [h1]
        rw [suggStep, if_pos hskip, hp]
        exact ih
      · push_neg at hskip
        obtain ⟨hkw, htl⟩ := hskip
        rw [suggStep, if_neg (by simp [hkw, htl])]
        rw [dictLookup_dictInsert]
        by_cases hk : e.keyword = k
        · have hk' : k ≠ "" := hk ▸ hkw
          have hp : (e.keyword == k && !(e.keyword == "") && !(e.title == ""))
              = true := by simp [hk, hk', htl]
          rw [hp, if_pos hk.symm]
          rfl
        · have hp : (e.keyword == k && !(e.keyword == "") && !(e.title == ""))
              = false := by simp [hk]
          rw [hp, if_neg (fun hh => hk hh.symm)]
          exact ih

/-- C10: `generate_suggestions` keys its dict by entry keyword — the
lookup at a key is the suggestion of the last qualifying entry with that
keyword (later entries overwrite earlier ones) — and because
`extract_organic_results` stamps every record with the single envelope
keyword, the suggestions mapping computed from any extracted SERP has at
most one entry. -/
theorem C10_suggestions_collapse_per_keyword :
    (∀ (domain : String) (entries : List SerpEntry) (k : String),
      dictLookup (buildSuggestions domain entries) k
        = (entries.reverse.find? (fun e =>
            e.keyword == k && !(e.keyword == "") && !(e.title == ""))).map
            (suggValOf domain))
    ∧ (∀ (resp : JVal) (domain : String) (recs : List OrganicRecord)
        (d : List (String × SuggVal)),
        extract_organic_results resp = .ok recs →
        generate_suggestions recs domain = .ok d →
        d.length ≤ 1) := by
  refine ⟨buildSuggestions_lookup, ?_⟩
  intro resp domain recs d hx hg
  obtain ⟨kwJ, hkw⟩ := extract_organic_results_keyword resp recs hx
  simp only [generate_suggestions] at hg
  obtain ⟨entries, hent, h2⟩ := exceptBindOk hg
  cases h2
  cases hE : entries with
  | nil => simp [buildSuggestions]
  | cons e0 es =>
      subst hE
      have hall : ∀ e ∈ (e0 :: es), e.keyword = e0.keyword := by
        intro e he
        obtain ⟨r, hr, hfr⟩ := mapMOkMem hent e he
        obtain ⟨r0, hr0, hfr0⟩ :=
          mapMOkMem hent e0 (List.mem_cons_self e0 es)
        have h1 : JVal.str e.keyword = kwJ :=
          (serpEntryOfRecord_keyword hfr) ▸ hkw r hr
        have h2 : JVal.str e0.keyword = kwJ :=
          (serpEntryOfRecord_keyword hfr0) ▸ hkw r0 hr0
        have := h1.trans h2.symm
        exact JVal.str.inj this
      rcases suggFold_single (e0 :: es) domain e0.keyword [] hall (Or.inl rfl)
        with h | ⟨v, h⟩ <;> simp [buildSuggestions, h]

/-- Witness for C10: on a two-organic-result SERP sharing the envelope
keyword, the pipeline's suggestions dict has a single entry. -/
theorem C10_suggestions_collapse_witness :
    extract_organic_results
        (.obj [("result", .arr [.obj [("keyword", .str "shoes"),
            ("items", .arr
              [.obj [("type", .str "organic"), ("title", .str "T1"),
                     ("url", .str "http://a.com/1"), ("rank_group", .num 1)],
               .obj [("type", .str "organic"), ("title", .str "T2"),
                     ("url", .str "http://b.com/1"), ("rank_group", .num 2)]])]]),
          ("data", .obj [])])
      = .ok [⟨.str "shoes", .str "T1", .str "http://a.com/1", .num 1,
              .str "en", .str "Unknown"⟩,
             ⟨.str "shoes", .str "T2", .str "http://b.com/1", .num 2,
              .str "en", .str "Unknown"⟩]
    ∧ generate_suggestions
        [⟨.str "shoes", .str "T1", .str "http://a.com/1", .num 1,
          .str "en", .str "Unknown"⟩,
         ⟨.str "shoes", .str "T2", .str "http://b.com/1", .num 2,
          .str "en", .str "Unknown"⟩] "mysite.com"
      = .ok [("shoes", ⟨"T2", "Shoes | mysite.com"⟩)]
    ∧ ([("shoes", (⟨"T2", "Shoes | mysite.com"⟩ : SuggVal))]).length ≤ 1 :=
  ⟨rfl, rfl,
   (C10_suggestions_collapse_per_keyword.2
     (.obj [("result", .arr [.obj [("keyword", .str "shoes"),
         ("items", .arr
           [.obj [("type", .str "organic"), ("title", .str "T1"),
                  ("url", .str "http://a.com/1"), ("rank_group", .num 1)],
            .obj [("type", .str "organic"), ("title", .str "T2"),
                  ("url", .str "http://b.com/1"), ("rank_group", .num 2)]])]]),
       ("data", .obj [])])
     "mysite.com"
     [⟨.str "shoes", .str "T1", .str "http://a.com/1", .num 1,
       .str "en", .str "Unknown"⟩,
      ⟨.str "shoes", .str "T2", .str "http://b.com/1", .num 2,
       .str "en", .str "Unknown"⟩]
     [("shoes", ⟨"T2", "Shoes | mysite.com"⟩)] rfl rfl)⟩

end SEOCopilot
